import Mathlib

/-!
# meal_max: shallow embedding of the Meal Store and Battle Engine

The repository ships only the test suite of `meal_max`
(`tests/test_kitchen_model.py`, `tests/test_battle_model.py`); the model
modules themselves (`meal_max/models/kitchen_model.py`,
`meal_max/models/battle_model.py`) are not present.  Every operation below is
therefore modelled from the specification, with names, signatures and error
messages taken from the test suite where the tests pin them down.

Conventions of the embedding:
* Python `float` prices become `ℚ` (the tests only use decimal literals).
* The SQL table becomes a `List MealRow` plus a `nextId` counter; the store
  is threaded explicitly through each operation.
* Python `ValueError`s are classified into the spec's error taxonomy
  (`ValidationError`, `NotFoundError`, `AlreadyDeletedError`,
  `ConflictError`) as the spec prescribes; each carries its message string.
* The one random draw of `battle` is passed in as an explicit real argument
  `r`, and the logistic threshold uses `Real.exp`.
-/

namespace MealMax

/-- The spec's error taxonomy (section 7): `ValidationError`, `NotFoundError`,
`AlreadyDeletedError`, `ConflictError`, each surfaced with a descriptive
message. -/
inductive Err where
  | validation : String → Err
  | notFound : String → Err
  | alreadyDeleted : String → Err
  | conflict : String → Err
deriving DecidableEq

/-- Modelled from the spec: `difficulty` is an enumerated value in
`{LOW, MED, HIGH}`; the tests pass it as a string. -/
def validDifficulty (d : String) : Bool :=
  d == "LOW" || d == "MED" || d == "HIGH"

/-- The `Meal` record of `kitchen_model.py` (fields named as in the tests:
`id, meal, cuisine, price, difficulty`). -/
structure Meal where
  id : Nat
  meal : String
  cuisine : String
  price : ℚ
  difficulty : String
deriving DecidableEq

/-- Modelled from the spec: the validating `Meal` constructor
(`__post_init__` of the dataclass, exercised by the attribute-validation
tests).  Rejects a non-positive price with
`ValueError("Price must be a positive value.")` and an out-of-range
difficulty with `ValueError("Difficulty must be 'LOW', 'MED', or 'HIGH'.")`;
otherwise yields the record. -/
def mkMeal (id : Nat) (meal cuisine : String) (price : ℚ)
    (difficulty : String) : Except String Meal :=
  if price ≤ 0 then
    .error "Price must be a positive value."
  else if ¬ validDifficulty difficulty then
    .error "Difficulty must be \x27LOW\x27, \x27MED\x27, or \x27HIGH\x27."
  else
    .ok ⟨id, meal, cuisine, price, difficulty⟩

/-- One row of the backing `meals` table (section 6): the meal's attributes
plus the soft-delete flag and the two counters. -/
structure MealRow where
  id : Nat
  meal : String
  cuisine : String
  price : ℚ
  difficulty : String
  deleted : Bool
  battles : Nat
  wins : Nat
deriving DecidableEq

/-- The Meal Store: the table rows plus the auto-assignment counter for ids. -/
structure Store where
  rows : List MealRow
  nextId : Nat
deriving DecidableEq

/-- Row lookup by id, as the SQL `SELECT ... WHERE id = ?` of the store. -/
def findRowById (st : Store) (id : Nat) : Option MealRow :=
  st.rows.find? (fun r => r.id == id)

/-- Row lookup by name, as the SQL `SELECT ... WHERE meal = ?` of the store. -/
def findRowByName (st : Store) (name : String) : Option MealRow :=
  st.rows.find? (fun r => r.meal == name)

/-- Modelled from the spec: `create(name, cuisine, price, difficulty) -> id`
(`create_meal` of `kitchen_model.py`).  Fails with `ValidationError` if
`price <= 0` or the difficulty is not in `{LOW, MED, HIGH}` (messages from
the tests); fails with `ConflictError` if a non-deleted meal with the same
name already exists; otherwise inserts a row with `battles=0, wins=0,
deleted=false` and returns the store-assigned id. -/
def create_meal (st : Store) (meal cuisine : String) (price : ℚ)
    (difficulty : String) : Except Err (Nat × Store) :=
  if price ≤ 0 then
    .error (.validation s!"Invalid price. Price must be a positive number.")
  else if ¬ validDifficulty difficulty then
    .error (.validation
      s!"Invalid difficulty level: {difficulty}. Must be \x27LOW\x27, \x27MED\x27, or \x27HIGH\x27.")
  else if st.rows.any (fun r => r.meal == meal && !r.deleted) then
    .error (.conflict s!"Meal with name \x27{meal}\x27 already exists")
  else
    .ok (st.nextId,
      ⟨st.rows ++ [⟨st.nextId, meal, cuisine, price, difficulty, false, 0, 0⟩],
        st.nextId + 1⟩)

/-- Modelled from the spec: `delete(id)` (`delete_meal`).  `NotFoundError` if
no row with that id exists, `AlreadyDeletedError` if the row's `deleted`
flag is already true, otherwise sets `deleted = true` (soft delete), leaving
every other field of the row unchanged. -/
def delete_meal (st : Store) (id : Nat) : Except Err Store :=
  match findRowById st id with
  | none => .error (.notFound s!"Meal with ID {id} not found")
  | some row =>
    if row.deleted then
      .error (.alreadyDeleted s!"Meal with ID {id} has been deleted")
    else
      .ok ⟨st.rows.map (fun r => if r.id == id then { r with deleted := true } else r),
        st.nextId⟩

/-- Project a table row back to a `Meal` record, as the tests' comparison
`meal == Meal(id=..., meal=..., cuisine=..., price=..., difficulty=...)`. -/
def rowToMeal (r : MealRow) : Meal :=
  ⟨r.id, r.meal, r.cuisine, r.price, r.difficulty⟩

/-- Modelled from the spec: `get_by_id(id) -> Meal` (`get_meal_by_id`).
Fails with `NotFoundError` if no matching row exists or the matching row is
soft-deleted (messages from the tests). -/
def get_meal_by_id (st : Store) (id : Nat) : Except Err Meal :=
  match findRowById st id with
  | none => .error (.notFound s!"Meal with ID {id} not found")
  | some row =>
    if row.deleted then
      .error (.notFound s!"Meal with ID {id} has been deleted")
    else
      .ok (rowToMeal row)

/-- Modelled from the spec: `get_by_name(name) -> Meal` (`get_meal_by_name`).
Fails with `NotFoundError` if no matching row exists or the matching row is
soft-deleted (messages from the tests). -/
def get_meal_by_name (st : Store) (name : String) : Except Err Meal :=
  match findRowByName st name with
  | none => .error (.notFound s!"Meal with name {name} not found")
  | some row =>
    if row.deleted then
      .error (.notFound s!"Meal with name {name} has been deleted")
    else
      .ok (rowToMeal row)

/-- Bump the counters of the row with the given id: `battles` always,
`wins` too when `win` is set.  All other fields are untouched. -/
def bumpStats (win : Bool) (id : Nat) (r : MealRow) : MealRow :=
  if r.id == id then
    { r with battles := r.battles + 1, wins := if win then r.wins + 1 else r.wins }
  else r

/-- Modelled from the spec: `update_stats(id, outcome)` (`update_meal_stats`,
with `outcome` the string `"win"` or `"loss"` as in the tests).  Fails with
`NotFoundError`/`AlreadyDeletedError` under the same conditions as delete;
rejects any other outcome string with `ValidationError`; on success
increments `battles` always and additionally `wins` iff the outcome is a
win. -/
def update_meal_stats (st : Store) (id : Nat) (result : String) :
    Except Err Store :=
  match findRowById st id with
  | none => .error (.notFound s!"Meal with ID {id} not found")
  | some row =>
    if row.deleted then
      .error (.alreadyDeleted s!"Meal with ID {id} has been deleted")
    else if result == "win" then
      .ok ⟨st.rows.map (bumpStats true id), st.nextId⟩
    else if result == "loss" then
      .ok ⟨st.rows.map (bumpStats false id), st.nextId⟩
    else
      .error (.validation
        s!"Invalid result: {result}. Expected \x27win\x27 or \x27loss\x27.")

/-- The Battle Engine's transient state: the ordered combatant roster
(`BattleModel.combatants` in `battle_model.py`). -/
structure BattleModel where
  combatants : List Meal
deriving DecidableEq

/-- Modelled from the spec: the difficulty penalty of `battle_score` — the
dictionary `{HIGH: 1, MED: 2, LOW: 3}` spelled out in
`test_get_battle_score`.  (A key outside the enumeration never arises for a
validated meal; the fallback value 0 is out of the modelled domain.) -/
def difficultyModifier (d : String) : ℚ :=
  if d == "HIGH" then 1 else if d == "MED" then 2 else if d == "LOW" then 3 else 0

/-- Modelled from the spec: the pure battle-score formula
`price * len(cuisine) - difficulty_modifier[difficulty]`. -/
def battleScore (m : Meal) : ℚ :=
  m.price * m.cuisine.length - difficultyModifier m.difficulty

/-- Modelled from the spec: `battle_score(meal)` (`get_battle_score`), which
fails with `ValidationError("Combatant cannot be None")` on an absent meal
and otherwise computes the pure score. -/
def get_battle_score (m : Option Meal) : Except Err ℚ :=
  match m with
  | none => .error (.validation "Combatant cannot be None")
  | some meal => .ok (battleScore meal)

/-- Modelled from the spec: `add_combatant(meal)` (`prep_combatant`): rejects
an absent meal and a duplicate id, otherwise appends to the roster. -/
def prep_combatant (bm : BattleModel) (m : Option Meal) :
    Except Err BattleModel :=
  match m with
  | none => .error (.validation "Combatant cannot be None")
  | some meal =>
    if bm.combatants.any (fun c => c.id == meal.id) then
      .error (.conflict s!"Meal with ID {meal.id} already exists in the battle")
    else
      .ok ⟨bm.combatants ++ [meal]⟩

/-- Clamp a rational into `[0, 1]`, as the spec's "clamped into `[0, 1]`". -/
def clamp01 (x : ℚ) : ℚ := min 1 (max 0 x)

/-- Modelled from the spec: the logistic threshold
`1 / (1 + e^(-normalized))` of `run_battle`, over the reals. -/
noncomputable def logisticThreshold (normalized : ℚ) : ℝ :=
  1 / (1 + Real.exp (-(normalized : ℝ)))

/-- Modelled from the spec: meal A of `run_battle` — the combatant with the
strictly higher `battle_score`, ties broken by roster order (the first
combatant). -/
def battleA (c0 c1 : Meal) : Meal :=
  if battleScore c1 > battleScore c0 then c1 else c0

/-- Modelled from the spec: meal B of `run_battle` — the other combatant. -/
def battleB (c0 c1 : Meal) : Meal :=
  if battleScore c1 > battleScore c0 then c0 else c1

/-- Modelled from the spec: `normalized` of `run_battle` — the score delta
`|score_a - score_b|` over the score sum, clamped into `[0, 1]`. -/
def battleNormalized (c0 c1 : Meal) : ℚ :=
  clamp01 (|battleScore (battleA c0 c1) - battleScore (battleB c0 c1)| /
    (battleScore (battleA c0 c1) + battleScore (battleB c0 c1)))

/-- Modelled from the spec: the winner of `run_battle` given the random
draw `r` — meal A if `r < threshold`, else meal B. -/
noncomputable def battleWinner (c0 c1 : Meal) (r : ℝ) : Meal :=
  if r < logisticThreshold (battleNormalized c0 c1) then battleA c0 c1
  else battleB c0 c1

/-- Modelled from the spec: the loser of `run_battle` — the combatant the
winner beat. -/
noncomputable def battleLoser (c0 c1 : Meal) (r : ℝ) : Meal :=
  if r < logisticThreshold (battleNormalized c0 c1) then battleB c0 c1
  else battleA c0 c1

/-- Modelled from the spec: the 2-combatant body of `run_battle`: updates
the store stats of the winner (`win`) and the loser (`loss`), removes the
loser from the roster (the winner remains) and returns the winner. -/
noncomputable def battleTwo (c0 c1 : Meal) (st : Store) (r : ℝ) :
    Except Err (Meal × BattleModel × Store) := do
  let st1 ← update_meal_stats st (battleWinner c0 c1 r).id "win"
  let st2 ← update_meal_stats st1 (battleLoser c0 c1 r).id "loss"
  .ok (battleWinner c0 c1 r, ⟨[battleWinner c0 c1 r]⟩, st2)

/-- Modelled from the spec: `run_battle() -> winning_meal` (`battle`), with
the one uniform random draw passed in as `r` and the Meal Store threaded
explicitly.  Fails with `ValidationError` ("Not enough combatants for a
battle", the message pinned by the tests) unless the roster holds exactly 2
entries; otherwise runs the 2-combatant body. -/
noncomputable def battle (bm : BattleModel) (st : Store) (r : ℝ) :
    Except Err (Meal × BattleModel × Store) :=
  match bm.combatants with
  | [c0, c1] => battleTwo c0 c1 st r
  | _ => .error (.validation "Not enough combatants for a battle")

/-- `clear_combatants()`: empties the roster. -/
def clear_combatants (_bm : BattleModel) : BattleModel := ⟨[]⟩

/-- `get_combatants()`: returns the roster in insertion order. -/
def get_combatants (bm : BattleModel) : List Meal := bm.combatants

/-! ## Concrete fixtures used by the witnesses -/

/-- The empty store used by the concrete witnesses. -/
def st0 : Store := ⟨[], 1⟩

/-- A store holding one active meal named "Pasta", for the duplicate-name
witness. -/
def stPasta : Store := ⟨[⟨1, "Pasta", "Italian", 10, "MED", false, 0, 0⟩], 2⟩

/-- A store holding one soft-deleted "Pasta" row, for the read-after-delete
witnesses. -/
def stDel : Store := ⟨[⟨1, "Pasta", "Italian", 10, "MED", true, 0, 0⟩], 2⟩

/-- Combatant fixture: both `mA` and `mB` score `1 * 1 - 3 = -2`, so their
battle is a coin flip with threshold `1 / (1 + e⁰) = 1/2`. -/
def mA : Meal := ⟨1, "Meal A", "C", 1, "LOW"⟩

/-- The second combatant fixture (same score as `mA`, distinct id). -/
def mB : Meal := ⟨2, "Meal B", "D", 1, "LOW"⟩

/-- A store holding the two combatant fixtures as active zero-counter rows. -/
def stAB : Store :=
  ⟨[⟨1, "Meal A", "C", 1, "LOW", false, 0, 0⟩,
    ⟨2, "Meal B", "D", 1, "LOW", false, 0, 0⟩], 3⟩

/-- `stAB` after `mA` wins and `mB` loses: both `battles` counters bumped,
only `mA`'s `wins`. -/
def stFinal : Store :=
  ⟨[⟨1, "Meal A", "C", 1, "LOW", false, 1, 1⟩,
    ⟨2, "Meal B", "D", 1, "LOW", false, 1, 0⟩], 3⟩

/-! ## Theorems settling the claims -/

/-- C1: for every meal with price `p`, cuisine `c` and difficulty in
`{LOW, MED, HIGH}`, `get_battle_score` returns exactly
`p * length c - penalty`, with penalty 3 for LOW, 2 for MED, 1 for HIGH;
in particular for price 100, the 9-character cuisine "Cuisine 1" and
difficulty LOW the score is `100 * 9 - 3 = 897`. -/
theorem get_battle_score_formula :
    (∀ (i : Nat) (n c : String) (p : ℚ),
        get_battle_score (some ⟨i, n, c, p, "LOW"⟩) = .ok (p * c.length - 3) ∧
        get_battle_score (some ⟨i, n, c, p, "MED"⟩) = .ok (p * c.length - 2) ∧
        get_battle_score (some ⟨i, n, c, p, "HIGH"⟩) = .ok (p * c.length - 1)) ∧
    get_battle_score (some ⟨1, "Meal 1", "Cuisine 1", 100, "LOW"⟩) = .ok 897 := by
  constructor
  · intro i n c p
    refine ⟨?_, ?_, ?_⟩ <;> simp [get_battle_score, battleScore, difficultyModifier]
  · simp [get_battle_score, battleScore, difficultyModifier]
    norm_num [show ("Cuisine 1".length = 9) from rfl]

/-- C10: the validating `Meal` constructor itself rejects a non-positive
price with `ValueError "Price must be a positive value."` and an
out-of-range difficulty with
`ValueError "Difficulty must be 'LOW', 'MED', or 'HIGH'."`, so every
successfully constructed `Meal` satisfies `price > 0` and
`difficulty ∈ {LOW, MED, HIGH}`. -/
theorem mkMeal_validates (i : Nat) (n c : String) (p : ℚ) (d : String) :
    (p ≤ 0 → mkMeal i n c p d = .error "Price must be a positive value.") ∧
    (0 < p → validDifficulty d = false →
      mkMeal i n c p d =
        .error "Difficulty must be \x27LOW\x27, \x27MED\x27, or \x27HIGH\x27.") ∧
    (∀ m, mkMeal i n c p d = .ok m →
      0 < m.price ∧
        (m.difficulty = "LOW" ∨ m.difficulty = "MED" ∨ m.difficulty = "HIGH")) := by
  refine ⟨?_, ?_, ?_⟩
  · intro hp
    simp [mkMeal, hp]
  · intro hp hd
    simp [mkMeal, not_le.mpr hp, hd]
  · intro m hm
    by_cases hp : p ≤ 0
    · simp [mkMeal, hp] at hm
    · by_cases hd : validDifficulty d
      · have hm' : m = ⟨i, n, c, p, d⟩ := by
          simp [mkMeal, hp, hd] at hm
          exact hm.symm
        subst hm'
        refine ⟨lt_of_not_le hp, ?_⟩
        simpa [validDifficulty, or_assoc] using hd
      · simp [mkMeal, hp, hd] at hm

/-- Witness for C10 at concrete inputs: the rejected price `-5`, the
rejected difficulty `"EASY"`, and the accepted meal of the tests. -/
theorem mkMeal_validates_witness :
    mkMeal 1 "Salad" "French" (-5) "LOW" =
      .error "Price must be a positive value." ∧
    mkMeal 1 "Burger" "American" 8 "EASY" =
      .error "Difficulty must be \x27LOW\x27, \x27MED\x27, or \x27HIGH\x27." ∧
    (0 < (⟨1, "Pasta", "Italian", 10, "MED"⟩ : Meal).price ∧
      ((⟨1, "Pasta", "Italian", 10, "MED"⟩ : Meal).difficulty = "LOW" ∨
        (⟨1, "Pasta", "Italian", 10, "MED"⟩ : Meal).difficulty = "MED" ∨
        (⟨1, "Pasta", "Italian", 10, "MED"⟩ : Meal).difficulty = "HIGH")) :=
  ⟨(mkMeal_validates 1 "Salad" "French" (-5) "LOW").1 (by norm_num),
   (mkMeal_validates 1 "Burger" "American" 8 "EASY").2.1 (by norm_num) (by rfl),
   (mkMeal_validates 1 "Pasta" "Italian" 10 "MED").2.2 ⟨1, "Pasta", "Italian", 10, "MED"⟩
     (by norm_num [mkMeal, validDifficulty])⟩

/-- C5: `create_meal` fails with `ValidationError` whenever `price ≤ 0` or
the difficulty is outside `{LOW, MED, HIGH}` (and, the result being an
error, performs no insertion); on a valid input with no active duplicate
name it inserts a single new row with `battles = 0`, `wins = 0`,
`deleted = false` and returns the store-assigned id. -/
theorem create_meal_spec (st : Store) (n c : String) (p : ℚ) (d : String) :
    (p ≤ 0 ∨ validDifficulty d = false →
      ∃ msg, create_meal st n c p d = .error (.validation msg)) ∧
    (0 < p → validDifficulty d = true →
      st.rows.any (fun r => r.meal == n && !r.deleted) = false →
      create_meal st n c p d =
        .ok (st.nextId,
          ⟨st.rows ++ [⟨st.nextId, n, c, p, d, false, 0, 0⟩], st.nextId + 1⟩)) := by
  constructor
  · rintro (hp | hd)
    · exact ⟨_, by rw [create_meal, if_pos hp]⟩
    · by_cases hp : p ≤ 0
      · exact ⟨_, by rw [create_meal, if_pos hp]⟩
      · exact ⟨_, by rw [create_meal, if_neg hp, if_pos (by simp [hd])]⟩
  · intro hp hd hdup
    simp [create_meal, not_le.mpr hp, hd, hdup]

/-- Witness for C5: the invalid price `-5` is rejected on the empty store,
and creating "Manti" on the empty store inserts the fresh zero-counter
row and returns id 1. -/
theorem create_meal_spec_witness :
    (∃ msg, create_meal st0 "Pizza" "Italian" (-5) "LOW" =
      .error (.validation msg)) ∧
    create_meal st0 "Manti" "Turkish" 13 "MED" =
      .ok (st0.nextId,
        ⟨st0.rows ++ [⟨st0.nextId, "Manti", "Turkish", 13, "MED", false, 0, 0⟩],
          st0.nextId + 1⟩) :=
  ⟨(create_meal_spec st0 "Pizza" "Italian" (-5) "LOW").1 (Or.inl (by norm_num)),
   (create_meal_spec st0 "Manti" "Turkish" 13 "MED").2 (by norm_num) (by rfl)
     (by rfl)⟩

/-- C6: on an otherwise-valid input, `create_meal` fails with
`ConflictError` if and only if a non-deleted row with the same name is
already in the store (a failed call, being an error result, leaves the
store unchanged). -/
theorem create_meal_conflict (st : Store) (n c : String) (p : ℚ) (d : String)
    (hp : 0 < p) (hd : validDifficulty d = true) :
    (∃ msg, create_meal st n c p d = .error (.conflict msg)) ↔
      ∃ r ∈ st.rows, r.meal = n ∧ r.deleted = false := by
  by_cases hdup : st.rows.any (fun r => r.meal == n && !r.deleted) = true
  · rw [List.any_eq_true] at hdup
    constructor
    · rintro -
      obtain ⟨r, hr, hcond⟩ := hdup
      rw [Bool.and_eq_true, beq_iff_eq, Bool.not_eq_true'] at hcond
      exact ⟨r, hr, hcond.1, hcond.2⟩
    · rintro -
      exact ⟨_, by
        rw [create_meal, if_neg (not_le.mpr hp), if_neg (by simp [hd]),
          if_pos (List.any_eq_true.mpr hdup)]⟩
  · constructor
    · rintro ⟨msg, hmsg⟩
      rw [create_meal, if_neg (not_le.mpr hp), if_neg (by simp [hd]),
        if_neg hdup] at hmsg
      cases hmsg
    · rintro ⟨r, hr, hname, hdel⟩
      exact absurd (List.any_eq_true.mpr
        ⟨r, hr, by rw [Bool.and_eq_true, beq_iff_eq, Bool.not_eq_true']
                   exact ⟨hname, hdel⟩⟩) hdup

/-- Witness for C6: with an active "Pasta" row in the store, a second
create of "Pasta" is a conflict. -/
theorem create_meal_conflict_witness :
    (∃ msg, create_meal stPasta "Pasta" "Italian" 13 "MED" =
      .error (.conflict msg)) ↔
      ∃ r ∈ stPasta.rows, r.meal = "Pasta" ∧ r.deleted = false :=
  create_meal_conflict stPasta "Pasta" "Italian" 13 "MED" (by norm_num) (by rfl)

/-- C7: `get_meal_by_id` and `get_meal_by_name` fail with `NotFoundError`
whenever no matching row exists or the matching row is soft-deleted
(`Option.all` makes the hypothesis cover both cases), so a soft-deleted
meal is treated as nonexistent by the read operations even though its row
persists in `st.rows`. -/
theorem get_meal_not_found (st : Store) (i : Nat) (n : String)
    (hi : (findRowById st i).all (fun r => r.deleted) = true)
    (hn : (findRowByName st n).all (fun r => r.deleted) = true) :
    (∃ msg, get_meal_by_id st i = .error (.notFound msg)) ∧
    (∃ msg, get_meal_by_name st n = .error (.notFound msg)) := by
  constructor
  · cases hfind : findRowById st i with
    | none =>
      exact ⟨s!"Meal with ID {i} not found", by simp [get_meal_by_id, hfind]⟩
    | some row =>
      rw [hfind] at hi
      exact ⟨s!"Meal with ID {i} has been deleted",
        by simp [get_meal_by_id, hfind, show row.deleted = true by simpa using hi]⟩
  · cases hfind : findRowByName st n with
    | none =>
      exact ⟨s!"Meal with name {n} not found", by simp [get_meal_by_name, hfind]⟩
    | some row =>
      rw [hfind] at hn
      exact ⟨s!"Meal with name {n} has been deleted",
        by simp [get_meal_by_name, hfind, show row.deleted = true by simpa using hn]⟩

/-- Witness for C7: id 999 matches no row, and the "Pasta" row of `stDel`
is soft-deleted; both reads fail with `NotFoundError`. -/
theorem get_meal_not_found_witness :
    (∃ msg, get_meal_by_id stDel 999 = .error (.notFound msg)) ∧
    (∃ msg, get_meal_by_name stDel "Pasta" = .error (.notFound msg)) :=
  get_meal_not_found stDel 999 "Pasta" (by decide) (by decide)

/-- C8: `delete_meal` fails with `NotFoundError` when no row has the given
id, fails with `AlreadyDeletedError` when the row is already soft-deleted
(so a second delete of the same id fails loudly), and otherwise only flips
`deleted` to true on the matching row — the row is kept and, by the
`{ r with deleted := true }` update, every other field is unchanged. -/
theorem delete_meal_spec (st : Store) (i : Nat) :
    (findRowById st i = none →
      ∃ msg, delete_meal st i = .error (.notFound msg)) ∧
    (∀ row, findRowById st i = some row → row.deleted = true →
      ∃ msg, delete_meal st i = .error (.alreadyDeleted msg)) ∧
    (∀ row, findRowById st i = some row → row.deleted = false →
      delete_meal st i =
        .ok ⟨st.rows.map (fun r => if r.id == i then { r with deleted := true } else r),
          st.nextId⟩) := by
  refine ⟨?_, ?_, ?_⟩
  · intro hfind
    exact ⟨s!"Meal with ID {i} not found", by simp [delete_meal, hfind]⟩
  · intro row hfind hdel
    exact ⟨s!"Meal with ID {i} has been deleted", by simp [delete_meal, hfind, hdel]⟩
  · intro row hfind hdel
    simp [delete_meal, hfind, hdel]

/-- Witness for C8: on `stPasta` (one active row with id 1): id 2 is not
found, the soft-deleted row of `stDel` is rejected as already deleted, and
deleting id 1 of `stPasta` flips exactly its `deleted` flag. -/
theorem delete_meal_spec_witness :
    (∃ msg, delete_meal stPasta 2 = .error (.notFound msg)) ∧
    (∃ msg, delete_meal stDel 1 = .error (.alreadyDeleted msg)) ∧
    delete_meal stPasta 1 =
      .ok ⟨stPasta.rows.map (fun r => if r.id == 1 then { r with deleted := true } else r),
        stPasta.nextId⟩ :=
  ⟨(delete_meal_spec stPasta 2).1 (by decide),
   (delete_meal_spec stDel 1).2.1 ⟨1, "Pasta", "Italian", 10, "MED", true, 0, 0⟩
     (by decide) (by decide),
   (delete_meal_spec stPasta 1).2.2 ⟨1, "Pasta", "Italian", 10, "MED", false, 0, 0⟩
     (by decide) (by decide)⟩

/-- C9: on an existing, non-deleted row, `update_meal_stats` with outcome
`"win"` maps the table through `bumpStats true` (battles + 1 and wins + 1 on
the matching row) and with `"loss"` through `bumpStats false` (battles + 1,
wins untouched); the last conjunct shows `bumpStats` changes nothing except
the two counters of the matching row. -/
theorem update_meal_stats_spec (st : Store) (i : Nat) (row : MealRow)
    (hfind : findRowById st i = some row) (hdel : row.deleted = false) :
    update_meal_stats st i "win" = .ok ⟨st.rows.map (bumpStats true i), st.nextId⟩ ∧
    update_meal_stats st i "loss" = .ok ⟨st.rows.map (bumpStats false i), st.nextId⟩ ∧
    (∀ (b : Bool) (r : MealRow),
      (bumpStats b i r).battles = (if r.id = i then r.battles + 1 else r.battles) ∧
      (bumpStats b i r).wins =
        (if b = true ∧ r.id = i then r.wins + 1 else r.wins) ∧
      (bumpStats b i r).id = r.id ∧
      (bumpStats b i r).meal = r.meal ∧
      (bumpStats b i r).cuisine = r.cuisine ∧
      (bumpStats b i r).price = r.price ∧
      (bumpStats b i r).difficulty = r.difficulty ∧
      (bumpStats b i r).deleted = r.deleted) := by
  refine ⟨?_, ?_, ?_⟩
  · rw [update_meal_stats, hfind]
    simp [hdel]
  · rw [update_meal_stats, hfind]
    simp [hdel]
  · intro b r
    unfold bumpStats
    by_cases hid : r.id = i
    · cases b <;> simp [hid]
    · simp [hid]

/-- Witness for C9 on `stPasta`'s single active row. -/
theorem update_meal_stats_spec_witness :
    update_meal_stats stPasta 1 "win" =
      .ok ⟨stPasta.rows.map (bumpStats true 1), stPasta.nextId⟩ ∧
    update_meal_stats stPasta 1 "loss" =
      .ok ⟨stPasta.rows.map (bumpStats false 1), stPasta.nextId⟩ ∧
    (∀ (b : Bool) (r : MealRow),
      (bumpStats b 1 r).battles = (if r.id = 1 then r.battles + 1 else r.battles) ∧
      (bumpStats b 1 r).wins =
        (if b = true ∧ r.id = 1 then r.wins + 1 else r.wins) ∧
      (bumpStats b 1 r).id = r.id ∧
      (bumpStats b 1 r).meal = r.meal ∧
      (bumpStats b 1 r).cuisine = r.cuisine ∧
      (bumpStats b 1 r).price = r.price ∧
      (bumpStats b 1 r).difficulty = r.difficulty ∧
      (bumpStats b 1 r).deleted = r.deleted) :=
  update_meal_stats_spec stPasta 1 ⟨1, "Pasta", "Italian", 10, "MED", false, 0, 0⟩
    (by decide) (by decide)

/-- C4: `battle` fails with a `ValidationError` whose message starts with
"Not enough combatants" unless the roster holds exactly 2 combatants — in
particular on rosters of 0 or 1 — and, the result being an error with no
new state, the failed call leaves the roster (and the store) unchanged. -/
theorem battle_not_enough_combatants (bm : BattleModel) (st : Store) (r : ℝ)
    (h : bm.combatants.length ≠ 2) :
    ∃ msg, battle bm st r = .error (.validation msg) ∧
      "Not enough combatants".data.isPrefixOf msg.data = true := by
  refine ⟨"Not enough combatants for a battle", ?_, by decide⟩
  obtain ⟨l⟩ := bm
  match l with
  | [] => rfl
  | [c] => rfl
  | [c0, c1] => exact absurd rfl h
  | c0 :: c1 :: c2 :: rest => rfl

/-- Witness for C4: the empty roster (0 combatants) fails. -/
theorem battle_not_enough_combatants_witness :
    ∃ msg, battle ⟨[]⟩ st0 0 = .error (.validation msg) ∧
      "Not enough combatants".data.isPrefixOf msg.data = true :=
  battle_not_enough_combatants ⟨[]⟩ st0 0 (by decide)

/-! ## Helper lemmas about stats bumping and the battle body -/

theorem bumpStats_id (w : Bool) (i : Nat) (r : MealRow) :
    (bumpStats w i r).id = r.id := by
  unfold bumpStats
  split <;> rfl

theorem find?_id_map_bump (l : List MealRow) (w : Bool) (i j : Nat) :
    (l.map (bumpStats w i)).find? (fun r => r.id == j) =
      (l.find? (fun r => r.id == j)).map (bumpStats w i) := by
  rw [List.find?_map]
  have hp : ((fun r : MealRow => r.id == j) ∘ bumpStats w i) =
      (fun r : MealRow => r.id == j) := by
    funext r
    simp [Function.comp_apply, bumpStats_id]
  rw [hp]

theorem findRowById_some (st : Store) (i : Nat) (row : MealRow)
    (h : findRowById st i = some row) : row.id = i := by
  rw [findRowById] at h
  have := List.find?_some h
  exact beq_iff_eq.mp this

theorem update_win_ok (st : Store) (i : Nat) (row : MealRow)
    (hfind : findRowById st i = some row) (hdel : row.deleted = false) :
    update_meal_stats st i "win" =
      .ok ⟨st.rows.map (bumpStats true i), st.nextId⟩ := by
  rw [update_meal_stats, hfind]
  simp [hdel]

theorem update_loss_ok (st : Store) (i : Nat) (row : MealRow)
    (hfind : findRowById st i = some row) (hdel : row.deleted = false) :
    update_meal_stats st i "loss" =
      .ok ⟨st.rows.map (bumpStats false i), st.nextId⟩ := by
  rw [update_meal_stats, hfind]
  simp [hdel]

theorem battle_do_ok (st : Store) (a b : Meal) (ra rb : MealRow)
    (hne : a.id ≠ b.id)
    (ha : findRowById st a.id = some ra) (hda : ra.deleted = false)
    (hb : findRowById st b.id = some rb) (hdb : rb.deleted = false) :
    update_meal_stats st a.id "win" =
      .ok ⟨st.rows.map (bumpStats true a.id), st.nextId⟩ ∧
    update_meal_stats ⟨st.rows.map (bumpStats true a.id), st.nextId⟩ b.id "loss" =
      .ok ⟨(st.rows.map (bumpStats true a.id)).map (bumpStats false b.id),
        st.nextId⟩ := by
  refine ⟨update_win_ok st a.id ra ha hda, ?_⟩
  have hbid : rb.id = b.id := findRowById_some st b.id rb hb
  have hrb_eq : bumpStats true a.id rb = rb := by
    rw [bumpStats, if_neg]
    simp only [hbid, beq_iff_eq]
    exact fun hh => hne hh.symm
  have hfind2 :
      findRowById ⟨st.rows.map (bumpStats true a.id), st.nextId⟩ b.id = some rb := by
    rw [findRowById]
    show (st.rows.map (bumpStats true a.id)).find? (fun r => r.id == b.id) = some rb
    rw [find?_id_map_bump]
    rw [findRowById] at hb
    rw [hb, Option.map_some', hrb_eq]
  exact update_loss_ok _ b.id rb hfind2 hdb

theorem battle_post_stats (st : Store) (a b : Meal) (ra rb : MealRow)
    (hne : a.id ≠ b.id)
    (ha : findRowById st a.id = some ra)
    (hb : findRowById st b.id = some rb) :
    findRowById ⟨(st.rows.map (bumpStats true a.id)).map (bumpStats false b.id),
        st.nextId⟩ a.id =
      some { ra with battles := ra.battles + 1, wins := ra.wins + 1 } ∧
    findRowById ⟨(st.rows.map (bumpStats true a.id)).map (bumpStats false b.id),
        st.nextId⟩ b.id =
      some { rb with battles := rb.battles + 1 } := by
  have haid : ra.id = a.id := findRowById_some st a.id ra ha
  have hbid : rb.id = b.id := findRowById_some st b.id rb hb
  rw [findRowById] at ha hb
  constructor
  · rw [findRowById]
    show ((st.rows.map (bumpStats true a.id)).map (bumpStats false b.id)).find?
        (fun r => r.id == a.id) = _
    rw [find?_id_map_bump, find?_id_map_bump, ha, Option.map_some', Option.map_some']
    have h1 : bumpStats true a.id ra =
        { ra with battles := ra.battles + 1, wins := ra.wins + 1 } := by
      rw [bumpStats, if_pos (by simp [haid])]
      rfl
    have h2 : bumpStats false b.id
        { ra with battles := ra.battles + 1, wins := ra.wins + 1 } =
        { ra with battles := ra.battles + 1, wins := ra.wins + 1 } := by
      rw [bumpStats, if_neg]
      simp only [haid, beq_iff_eq]
      exact hne
    rw [h1, h2]
  · rw [findRowById]
    show ((st.rows.map (bumpStats true a.id)).map (bumpStats false b.id)).find?
        (fun r => r.id == b.id) = _
    rw [find?_id_map_bump, find?_id_map_bump, hb, Option.map_some', Option.map_some']
    have h1 : bumpStats true a.id rb = rb := by
      rw [bumpStats, if_neg]
      simp only [hbid, beq_iff_eq]
      exact fun hh => hne hh.symm
    have h2 : bumpStats false b.id rb = { rb with battles := rb.battles + 1 } := by
      rw [bumpStats, if_pos (by simp [hbid])]
      rfl
    rw [h1, h2]

theorem winner_loser_cases (c0 c1 : Meal) (r : ℝ) :
    (battleWinner c0 c1 r = battleA c0 c1 ∧ battleLoser c0 c1 r = battleB c0 c1) ∨
    (battleWinner c0 c1 r = battleB c0 c1 ∧ battleLoser c0 c1 r = battleA c0 c1) := by
  by_cases hr : r < logisticThreshold (battleNormalized c0 c1)
  · exact Or.inl ⟨by rw [battleWinner, if_pos hr], by rw [battleLoser, if_pos hr]⟩
  · exact Or.inr ⟨by rw [battleWinner, if_neg hr], by rw [battleLoser, if_neg hr]⟩

theorem battleA_or (c0 c1 : Meal) :
    (battleA c0 c1 = c0 ∧ battleB c0 c1 = c1) ∨
    (battleA c0 c1 = c1 ∧ battleB c0 c1 = c0) := by
  by_cases hgt : battleScore c1 > battleScore c0
  · exact Or.inr ⟨by rw [battleA, if_pos hgt], by rw [battleB, if_pos hgt]⟩
  · exact Or.inl ⟨by rw [battleA, if_neg hgt], by rw [battleB, if_neg hgt]⟩

theorem battle_concrete_eval :
    battle ⟨[mA, mB]⟩ stAB 0 = .ok (mA, ⟨[mA]⟩, stFinal) := by
  have hsA : battleScore mA = -2 := by
    simp [battleScore, mA, difficultyModifier, show ("C".length = 1) from rfl]
    norm_num
  have hsB : battleScore mB = -2 := by
    simp [battleScore, mB, difficultyModifier, show ("D".length = 1) from rfl]
    norm_num
  have hA : battleA mA mB = mA := by
    rw [battleA, if_neg (by rw [hsA, hsB]; exact lt_irrefl _)]
  have hB : battleB mA mB = mB := by
    rw [battleB, if_neg (by rw [hsA, hsB]; exact lt_irrefl _)]
  have hn : battleNormalized mA mB = 0 := by
    rw [battleNormalized, hA, hB, hsA, hsB]
    norm_num [clamp01]
  have hpos : (0 : ℝ) < logisticThreshold (battleNormalized mA mB) := by
    rw [logisticThreshold]
    positivity
  have hw : battleWinner mA mB 0 = mA := by
    rw [battleWinner, if_pos hpos, hA]
  have hl : battleLoser mA mB 0 = mB := by
    rw [battleLoser, if_pos hpos, hB]
  show battleTwo mA mB stAB 0 = .ok (mA, ⟨[mA]⟩, stFinal)
  rw [battleTwo, hw, hl]
  rfl

/-- C2: whenever `battle` on a 2-combatant roster returns a winner, that
winner is determined exactly as the spec's formula says: with `sA` the
higher and `sB` the lower of the two battle scores,
`delta = |sA - sB|`, `normalized = delta / (sA + sB)` clamped into
`[0, 1]`, and `threshold = 1 / (1 + e^(-normalized))`, the winner is meal A
(the combatant with the strictly higher score, ties broken by roster
order, i.e. the first combatant) if `r < threshold`, else meal B. -/
theorem battle_winner_spec (m0 m1 : Meal) (st : Store) (r : ℝ)
    (w : Meal) (bm' : BattleModel) (st' : Store)
    (h : battle ⟨[m0, m1]⟩ st r = .ok (w, bm', st')) :
    w = (if r < 1 / (1 + Real.exp (-((min 1 (max 0
          (|max (battleScore m0) (battleScore m1) - min (battleScore m0) (battleScore m1)| /
            (max (battleScore m0) (battleScore m1) + min (battleScore m0) (battleScore m1)))) : ℚ) : ℝ)))
        then (if battleScore m1 > battleScore m0 then m1 else m0)
        else (if battleScore m1 > battleScore m0 then m0 else m1)) := by
  have hbt : battleTwo m0 m1 st r = .ok (w, bm', st') := h
  have hw : w = battleWinner m0 m1 r := by
    cases hu1 : update_meal_stats st (battleWinner m0 m1 r).id "win" with
    | error e =>
      rw [battleTwo, hu1] at hbt
      simp [Bind.bind, Except.bind] at hbt
    | ok st1 =>
      rw [battleTwo, hu1] at hbt
      simp only [Bind.bind, Except.bind] at hbt
      cases hu2 : update_meal_stats st1 (battleLoser m0 m1 r).id "loss" with
      | error e =>
        rw [hu2] at hbt
        simp [Except.bind] at hbt
      | ok st2 =>
        rw [hu2] at hbt
        simp only [Except.bind, Except.ok.injEq, Prod.mk.injEq] at hbt
        exact hbt.1.symm
  rw [hw, battleWinner, battleA, battleB, battleNormalized, battleA, battleB,
    logisticThreshold, clamp01]
  by_cases hgt : battleScore m1 > battleScore m0
  · simp only [hgt, if_true, max_eq_right (le_of_lt hgt), min_eq_left (le_of_lt hgt)]
  · simp only [hgt, if_false,
      max_eq_left (not_lt.mp hgt), min_eq_right (not_lt.mp hgt)]

/-- Witness for C2: the equal-score battle of `mA` and `mB` with draw
`r = 0` (threshold `1/2`), where `mA` — the first combatant, tie broken by
roster order — wins. -/
theorem battle_winner_spec_witness :
    mA = (if (0 : ℝ) < 1 / (1 + Real.exp (-((min 1 (max 0
          (|max (battleScore mA) (battleScore mB) - min (battleScore mA) (battleScore mB)| /
            (max (battleScore mA) (battleScore mB) + min (battleScore mA) (battleScore mB)))) : ℚ) : ℝ)))
        then (if battleScore mB > battleScore mA then mB else mA)
        else (if battleScore mB > battleScore mA then mA else mB)) :=
  battle_winner_spec mA mB stAB 0 mA ⟨[mA]⟩ stFinal battle_concrete_eval

/-- C3: a successful `battle` on a 2-combatant roster leaves exactly one
combatant — the winner — in the roster, and in the store both meals' rows
get `battles` incremented by 1 while exactly the winner's row gets `wins`
incremented by 1 (the loser's `wins` is unchanged), via
`update_stats(winner, win)` and `update_stats(loser, loss)`. -/
theorem battle_roster_and_stats (m0 m1 : Meal) (st : Store) (r : ℝ)
    (w : Meal) (bm' : BattleModel) (st' : Store)
    (row0 row1 : MealRow)
    (hne : m0.id ≠ m1.id)
    (h0 : findRowById st m0.id = some row0) (hd0 : row0.deleted = false)
    (h1 : findRowById st m1.id = some row1) (hd1 : row1.deleted = false)
    (h : battle ⟨[m0, m1]⟩ st r = .ok (w, bm', st')) :
    bm'.combatants = [w] ∧
    ((w = m0 ∧
       (∃ rw', findRowById st' m0.id = some rw' ∧
          rw'.battles = row0.battles + 1 ∧ rw'.wins = row0.wins + 1) ∧
       (∃ rl', findRowById st' m1.id = some rl' ∧
          rl'.battles = row1.battles + 1 ∧ rl'.wins = row1.wins)) ∨
     (w = m1 ∧
       (∃ rw', findRowById st' m1.id = some rw' ∧
          rw'.battles = row1.battles + 1 ∧ rw'.wins = row1.wins + 1) ∧
       (∃ rl', findRowById st' m0.id = some rl' ∧
          rl'.battles = row0.battles + 1 ∧ rl'.wins = row0.wins))) := by
  have hbt : battleTwo m0 m1 st r = .ok (w, bm', st') := h
  have hcases :
      (battleWinner m0 m1 r = m0 ∧ battleLoser m0 m1 r = m1) ∨
      (battleWinner m0 m1 r = m1 ∧ battleLoser m0 m1 r = m0) := by
    rcases winner_loser_cases m0 m1 r with ⟨hw, hl⟩ | ⟨hw, hl⟩ <;>
      rcases battleA_or m0 m1 with ⟨ha, hb⟩ | ⟨ha, hb⟩
    · exact Or.inl ⟨hw.trans ha, hl.trans hb⟩
    · exact Or.inr ⟨hw.trans ha, hl.trans hb⟩
    · exact Or.inr ⟨hw.trans hb, hl.trans ha⟩
    · exact Or.inl ⟨hw.trans hb, hl.trans ha⟩
  rcases hcases with ⟨hw, hl⟩ | ⟨hw, hl⟩
  · have hdo := battle_do_ok st m0 m1 row0 row1 hne h0 hd0 h1 hd1
    rw [battleTwo, hw, hl, hdo.1] at hbt
    simp only [Bind.bind, Except.bind] at hbt
    rw [hdo.2] at hbt
    simp only [Except.ok.injEq, Prod.mk.injEq] at hbt
    obtain ⟨hw', hbm', hst'⟩ := hbt
    have hpost := battle_post_stats st m0 m1 row0 row1 hne h0 h1
    subst hw' hbm' hst'
    refine ⟨rfl, Or.inl ⟨rfl, ⟨_, hpost.1, rfl, rfl⟩, ⟨_, hpost.2, rfl, rfl⟩⟩⟩
  · have hdo := battle_do_ok st m1 m0 row1 row0 (fun hh => hne hh.symm) h1 hd1 h0 hd0
    rw [battleTwo, hw, hl, hdo.1] at hbt
    simp only [Bind.bind, Except.bind] at hbt
    rw [hdo.2] at hbt
    simp only [Except.ok.injEq, Prod.mk.injEq] at hbt
    obtain ⟨hw', hbm', hst'⟩ := hbt
    have hpost := battle_post_stats st m1 m0 row1 row0 (fun hh => hne hh.symm) h1 h0
    subst hw' hbm' hst'
    refine ⟨rfl, Or.inr ⟨rfl, ⟨_, hpost.1, rfl, rfl⟩, ⟨_, hpost.2, rfl, rfl⟩⟩⟩

/-- Witness for C3: the concrete battle of `mA` and `mB` over `stAB` with
draw 0; `mA` wins, one combatant remains, both `battles` counters read 1
and only `mA`'s `wins` does. -/
theorem battle_roster_and_stats_witness :
    (⟨[mA]⟩ : BattleModel).combatants = [mA] ∧
    ((mA = mA ∧
       (∃ rw', findRowById stFinal mA.id = some rw' ∧
          rw'.battles = 1 ∧ rw'.wins = 1) ∧
       (∃ rl', findRowById stFinal mB.id = some rl' ∧
          rl'.battles = 1 ∧ rl'.wins = 0)) ∨
     (mA = mB ∧
       (∃ rw', findRowById stFinal mB.id = some rw' ∧
          rw'.battles = 1 ∧ rw'.wins = 1) ∧
       (∃ rl', findRowById stFinal mA.id = some rl' ∧
          rl'.battles = 1 ∧ rl'.wins = 0))) :=
  battle_roster_and_stats mA mB stAB 0 mA ⟨[mA]⟩ stFinal
    ⟨1, "Meal A", "C", 1, "LOW", false, 0, 0⟩
    ⟨2, "Meal B", "D", 1, "LOW", false, 0, 0⟩
    (by decide) (by decide) (by decide) (by decide) (by decide)
    battle_concrete_eval

end MealMax
